import Mathlib

/-!
Verification development for a browser-based account-management front end
(sign-up, sign-in, password reset, profile editing with photo upload) backed
by an external auth / document-store / file-store service.

The definitions below are a shallow embedding of the source:
- the Firestore document and the merge-write performed by the profile save
  (setDoc with the merge flag);
- the Profile screen handlers (fetchUserData, handleImageChange, onSubmit);
- the Login, SignUp and ForgotPassword screen handlers;
- the zod validation schemas (loginSchema, signUpSchema, forgotPasswordSchema),
  including a model of the JavaScript string-to-number conversion used by the
  age rule.

Asynchronous remote calls are embedded by passing their outcome as an explicit
argument to the handler; transient per-screen UI state is an explicit record
threaded through the handlers.
-/

/-- A Firestore field value: a string, or an explicit null (JavaScript null is
written into the document, e.g. photoURL when no image is set). -/
inductive FValue where
  | str (s : String)
  | null
deriving DecidableEq

/-- Convert a JavaScript value of type string-or-null to a Firestore value. -/
def FValue.ofOpt : Option String → FValue
  | some s => .str s
  | none => .null

/-- A Firestore document: a partial map from field names to values
(none = field absent from the document; a wholly absent document is the
everywhere-none map). -/
def FDoc := String → Option FValue

/-- The document with no fields (also models a nonexistent document). -/
def emptyFDoc : FDoc := fun _ => none

/-- setDoc with the merge flag: fields of the update are written, all other
fields of the stored document are preserved. -/
def setDocMerge (d : FDoc) (u : List (String × FValue)) : FDoc :=
  fun k =>
    match u.lookup k with
    | some v => some v
    | none => d k

/-- The values of the profile form (profileSchema fields). -/
structure ProfileFormData where
  username : String
  dob : String
  mobileNumber : String
  address : String
deriving DecidableEq

/-- The authenticated Firebase user visible to the screens: uid, email,
displayName and photoURL (the last three are string-or-null). -/
structure FirebaseUser where
  uid : String
  email : Option String
  displayName : Option String
  photoURL : Option String
deriving DecidableEq

/-- Outcome of an awaited remote call that returns no payload. -/
inductive OpResult where
  | ok
  | failed
deriving DecidableEq

/-- Transient UI state of the Profile screen: error and success messages,
loading flag, selected photo preview, fetching flag, and the form values. -/
structure ProfileState where
  error : String
  message : String
  isLoading : Bool
  profileImage : Option String
  fetchingUserData : Bool
  form : ProfileFormData
deriving DecidableEq

/-- JavaScript truthiness of a string-or-null value (null and the empty
string are falsy). -/
def truthyS : Option String → Bool
  | some s => !s.isEmpty
  | none => false

/-- JavaScript a-or-else-b for a string-or-null value with a string default,
as in: userData.username or currentUser.displayName or the empty string. -/
def jsStr (a : Option String) (dflt : String) : String :=
  match a with
  | some s => if s.isEmpty then dflt else s
  | none => dflt

/-- The field list written by the Profile save: the four form fields, the
photoURL from the preview state, the denormalized user email, and the
updatedAt timestamp. -/
def profileSaveFields (data : ProfileFormData) (profileImage : Option String)
    (email : Option String) (now : String) : List (String × FValue) :=
  [("username", .str data.username),
   ("dob", .str data.dob),
   ("mobileNumber", .str data.mobileNumber),
   ("address", .str data.address),
   ("photoURL", FValue.ofOpt profileImage),
   ("email", FValue.ofOpt email),
   ("updatedAt", .str now)]

/-- The field names written by every profile save. -/
def profileSavedKeys : List String :=
  ["username", "dob", "mobileNumber", "address", "photoURL", "email", "updatedAt"]

/-- onSubmit of the Profile screen: clear messages, set loading; await the
identity profile update; if a user is present, merge-write the profile record
into the document store; set the success or failure message; clear loading.
The outcomes of the two awaited calls are passed as arguments; the document
store is threaded explicitly. -/
def profileOnSubmit (data : ProfileFormData) (updateRes saveRes : OpResult)
    (currentUser : Option FirebaseUser) (now : String)
    (s : ProfileState) (store : FDoc) : ProfileState × FDoc :=
  match updateRes with
  | .failed =>
    ({ s with message := "", error := "Failed to update profile.", isLoading := false }, store)
  | .ok =>
    match currentUser with
    | none =>
      ({ s with message := "Profile updated successfully!", error := "", isLoading := false },
       store)
    | some u =>
      match saveRes with
      | .failed =>
        ({ s with message := "", error := "Failed to update profile.", isLoading := false },
         store)
      | .ok =>
        ({ s with message := "Profile updated successfully!", error := "", isLoading := false },
         setDocMerge store (profileSaveFields data s.profileImage u.email now))

/-- Whether the first character list begins with the second. -/
def startsWithChars : List Char → List Char → Bool
  | _, [] => true
  | [], _ :: _ => false
  | c :: cs, p :: ps => c = p && startsWithChars cs ps

/-- The JavaScript startsWith check on strings. -/
def jsStartsWith (s p : String) : Bool :=
  startsWithChars s.toList p.toList

/-- A file selected in the file input: name, MIME content type, byte size. -/
structure JSFile where
  name : String
  type : String
  size : Nat
deriving DecidableEq

/-- Outcome of the photo upload followed by the download-URL fetch. -/
inductive UploadOutcome where
  | ok (url : String)
  | failed
deriving DecidableEq

/-- handleImageChange of the Profile screen. Returns the new state and
whether the upload call was issued. A missing file returns unchanged; a file
whose content type does not start with image/ or whose size exceeds
5 * 1024 * 1024 bytes sets a local validation error and issues no upload;
otherwise the upload runs and on success the returned URL becomes the
preview. -/
def handleImageChange (file : Option JSFile) (u : UploadOutcome)
    (s : ProfileState) : ProfileState × Bool :=
  match file with
  | none => (s, false)
  | some f =>
    if !(jsStartsWith f.type "image/") then
      ({ s with error := "Please select an image file (PNG, JPG, etc.)" }, false)
    else if f.size > 5 * 1024 * 1024 then
      ({ s with error := "Image size should be less than 5MB" }, false)
    else
      match u with
      | .ok url => ({ s with profileImage := some url, isLoading := false }, true)
      | .failed => ({ s with error := "Failed to upload image.", isLoading := false }, true)

/-- The stored user document as read back by the Profile screen
(all fields optional). -/
structure UserData where
  username : Option String
  dob : Option String
  mobileNumber : Option String
  address : Option String
  photoURL : Option String
deriving DecidableEq

/-- Outcome of the getDoc call on mount: document found with data, document
absent, or the call failed. -/
inductive FetchOutcome where
  | found (d : UserData)
  | absent
  | failed
deriving DecidableEq

/-- Initial state of the Profile screen: empty messages, not loading, no
preview, fetching in progress, and form defaults (username from the user
displayName, other fields empty). -/
def initialProfileState (currentUser : Option FirebaseUser) : ProfileState :=
  { error := ""
    message := ""
    isLoading := false
    profileImage := none
    fetchingUserData := true
    form :=
      { username := jsStr (currentUser.bind FirebaseUser.displayName) ""
        dob := ""
        mobileNumber := ""
        address := "" } }

/-- fetchUserData run on Profile mount: with no current user it returns at
once; otherwise, on a found document it fills the preview (document photoURL,
else user photoURL, else unchanged) and resets the form from the document
with user-displayName fallback for username; on an absent document it resets
the form to the defaults and fills the preview from the user; on a failure it
only logs. In every completed branch the fetching flag is cleared. -/
def fetchUserData (r : FetchOutcome) (currentUser : Option FirebaseUser)
    (s : ProfileState) : ProfileState :=
  match currentUser with
  | none => s
  | some u =>
    match r with
    | .found d =>
      { s with
        fetchingUserData := false
        profileImage :=
          if truthyS d.photoURL then d.photoURL
          else if truthyS u.photoURL then u.photoURL
          else s.profileImage
        form :=
          { username := jsStr d.username (jsStr u.displayName "")
            dob := jsStr d.dob ""
            mobileNumber := jsStr d.mobileNumber ""
            address := jsStr d.address "" } }
    | .absent =>
      { s with
        fetchingUserData := false
        profileImage := if truthyS u.photoURL then u.photoURL else s.profileImage
        form :=
          { username := jsStr u.displayName ""
            dob := ""
            mobileNumber := ""
            address := "" } }
    | .failed =>
      { s with fetchingUserData := false }

/-- Transient UI state shared by the Login, SignUp and ForgotPassword
screens: error message, success message, loading flag. -/
structure ScreenState where
  error : String
  message : String
  isLoading : Bool
deriving DecidableEq

/-- The authentication state owned by the Session Provider. -/
inductive SessionState where
  | authenticated (u : FirebaseUser)
  | anonymous
deriving DecidableEq

/-- Outcome of the email/password sign-in call. -/
inductive SignInResult where
  | success (u : FirebaseUser)
  | invalidCredentials
deriving DecidableEq

/-- Modelled from the spec: the Session Provider (the AuthContext module) is
not among the provided sources; per the spec, sign-in(email, password) yields
an authenticated session or fails with InvalidCredentials, leaving the
session as it was. -/
def sessionAfterSignIn (s : SessionState) : SignInResult → SessionState
  | .success u => .authenticated u
  | .invalidCredentials => s

/-- Outcome of the sign-up (account creation) call. -/
inductive SignUpResult where
  | created (u : FirebaseUser)
  | accountCreationFailed
deriving DecidableEq

/-- Modelled from the spec: the Session Provider (the AuthContext module) is
not among the provided sources; per the spec, sign-up(email, password) yields
a new authenticated session or fails with AccountCreationFailed, leaving the
session as it was. The session becomes authenticated as soon as account
creation succeeds, independently of any later call. -/
def sessionAfterSignUp (s : SessionState) : SignUpResult → SessionState
  | .created u => .authenticated u
  | .accountCreationFailed => s

/-- Outcome of the password-reset dispatch. -/
inductive ResetOutcome where
  | dispatched
  | providerError
deriving DecidableEq

/-- Modelled from the spec: the Session Provider (the AuthContext module) is
not among the provided sources; per the spec, reset-password(email) fails
silently from the caller perspective when the email does not exist (the
provider does not disclose existence), so the observable outcome depends only
on provider reachability, never on whether the email has an account, and a
dispatched result means only that a reset message was sent. -/
def resetPasswordOutcome (_emailHasAccount : Bool) (providerReachable : Bool) : ResetOutcome :=
  if providerReachable then .dispatched else .providerError

/-- onSubmit of the Login screen: clear the error, set loading, await
sign-in; on success navigate to /profile, on failure set the generic error;
finally clear loading. Returns the new state and the navigation target. -/
def loginOnSubmit (r : SignInResult) (s : ScreenState) : ScreenState × Option String :=
  match r with
  | .success _ =>
    ({ s with error := "", isLoading := false }, some "/profile")
  | .invalidCredentials =>
    ({ s with error := "Failed to sign in. Please check your credentials.", isLoading := false },
     none)

/-- handleGoogleSignIn of the Login screen: clear the error, set loading,
await the external-provider sign-in; on success navigate to /profile, on
failure set the generic error; finally clear loading. -/
def handleGoogleSignIn (r : SignInResult) (s : ScreenState) : ScreenState × Option String :=
  match r with
  | .success _ =>
    ({ s with error := "", isLoading := false }, some "/profile")
  | .invalidCredentials =>
    ({ s with error := "Failed to sign in with Google.", isLoading := false }, none)

/-- onSubmit of the SignUp screen: clear the error, set loading, await
account creation, then await the identity display-name update; navigate to
/profile only after both; a failure of either sets the one generic message;
finally clear loading. -/
def signUpOnSubmit (r1 : SignUpResult) (r2 : OpResult) (s : ScreenState) :
    ScreenState × Option String :=
  match r1 with
  | .accountCreationFailed =>
    ({ s with error := "Failed to create an account.", isLoading := false }, none)
  | .created _ =>
    match r2 with
    | .failed =>
      ({ s with error := "Failed to create an account.", isLoading := false }, none)
    | .ok =>
      ({ s with error := "", isLoading := false }, some "/profile")

/-- onSubmit of the ForgotPassword screen: clear both messages, set loading,
await the reset dispatch; on success set the inbox message, on failure set
the generic error; finally clear loading. -/
def forgotOnSubmit (r : ResetOutcome) (s : ScreenState) : ScreenState :=
  match r with
  | .dispatched =>
    { s with message := "Check your inbox for password reset instructions.",
             error := "", isLoading := false }
  | .providerError =>
    { s with message := "",
             error := "Failed to reset password. Please check your email address.",
             isLoading := false }

/-- Number of error banners the Login/SignUp/ForgotPassword render shows:
the single banner div is rendered exactly when the error string is
nonempty. -/
def bannerCount (s : ScreenState) : Nat :=
  if s.error.isEmpty then 0 else 1

/-- Characters the email check allows in the local part. -/
def emailLocalChar (c : Char) : Bool :=
  c.isAlpha || c.isDigit || c = '_' || c = '\x27' || c = '+' || c = '-' || c = '.'

/-- Characters the email check allows as the last character of the local
part (no trailing dot). -/
def emailLocalEndChar (c : Char) : Bool :=
  c.isAlpha || c.isDigit || c = '_' || c = '+' || c = '-'

/-- No two consecutive dots. -/
def noDoubleDot : List Char → Bool
  | '.' :: '.' :: _ => false
  | _ :: rest => noDoubleDot rest
  | [] => true

/-- The local part of an address: nonempty, allowed characters only, no
leading dot, no double dot, and an allowed terminal character. -/
def emailLocalOk (l : List Char) : Bool :=
  match l with
  | [] => false
  | c :: _ =>
    c ≠ '.' && l.all emailLocalChar && noDoubleDot l &&
      (match l.getLast? with
       | some e => emailLocalEndChar e
       | none => false)

/-- A domain label: nonempty, alphanumeric first character, then
alphanumeric or hyphen. -/
def emailLabelOk : List Char → Bool
  | [] => false
  | c :: rest => (c.isAlpha || c.isDigit) && rest.all (fun d => d.isAlpha || d.isDigit || d = '-')

/-- The terminal domain label: letters only, length at least two. -/
def emailTldOk (l : List Char) : Bool :=
  l.length ≥ 2 && l.all Char.isAlpha

/-- Split a character list at dots (a dot between every two parts). -/
def splitDots : List Char → List (List Char)
  | [] => [[]]
  | c :: rest =>
    if c = '.' then [] :: splitDots rest
    else
      match splitDots rest with
      | p :: ps => (c :: p) :: ps
      | [] => [[c]]

/-- The domain part of an address: at least one label, a dot, and a terminal
letters-only label of length at least two. -/
def emailDomainOk (d : List Char) : Bool :=
  match (splitDots d).reverse with
  | tld :: labels => !labels.isEmpty && emailTldOk tld && labels.all emailLabelOk
  | [] => false

/-- Split a character list at its single at-sign; more or fewer than one
at-sign yields none. -/
def splitAtSign : List Char → Option (List Char × List Char)
  | [] => none
  | c :: cs =>
    if c = '@' then
      if '@' ∈ cs then none else some ([], cs)
    else
      (splitAtSign cs).map (fun p => (c :: p.1, p.2))

/-- The email-shape rule applied by the provided schemas: exactly one
at-sign separating an acceptable local part from an acceptable dotted
domain. -/
def emailShapeValid (s : String) : Bool :=
  match splitAtSign s.toList with
  | some (l, d) => emailLocalOk l && emailDomainOk d
  | none => false

/-- A JavaScript number as produced by converting a string: a finite
decimal written as a scaled integer n / 10 ^ pow, or an infinity (NaN is
represented by none at the use sites). -/
inductive JSNum where
  | num (n : Int) (pow : Nat)
  | posInf
  | negInf
deriving DecidableEq

/-- The rational value of a JavaScript number when finite. -/
def JSNum.val? : JSNum → Option ℚ
  | .num n p => some ((n : ℚ) / (10 : ℚ) ^ p)
  | .posInf => none
  | .negInf => none

/-- Whether a JavaScript number is at least the given integer. -/
def JSNum.geI : JSNum → Int → Bool
  | .num n p, a => decide (a * (10 : Int) ^ p ≤ n)
  | .posInf, _ => true
  | .negInf, _ => false

/-- Value of one digit character in bases up to 16. -/
def digToNat (c : Char) : Option Nat :=
  if c.isDigit then some (c.toNat - 48)
  else if 'a' ≤ c && c ≤ 'f' then some (c.toNat - 87)
  else if 'A' ≤ c && c ≤ 'F' then some (c.toNat - 55)
  else none

/-- Value of a nonempty digit string in the given base; none when empty or
when a character is not a digit of the base. -/
def digitsToNat (base : Nat) (cs : List Char) : Option Nat :=
  cs.foldl
    (fun acc c =>
      match acc, digToNat c with
      | some a, some d => if d < base then some (a * base + d) else none
      | _, _ => none)
    (if cs.isEmpty then none else some 0)

/-- Split a mantissa-and-exponent character list at the first exponent
marker. -/
def splitExp (cs : List Char) : List Char × Option (List Char) :=
  match cs.span (fun c => !(c = 'e' || c = 'E')) with
  | (before, []) => (before, none)
  | (before, _ :: after) => (before, some after)

/-- Split a mantissa at its dot; a second dot yields none. -/
def splitDot (cs : List Char) : Option (List Char × List Char) :=
  match cs.span (fun c => !(c = '.')) with
  | (ip, []) => some (ip, [])
  | (ip, _ :: fp) => if '.' ∈ fp then none else some (ip, fp)

/-- An unsigned decimal mantissa: digits, an optional dot, digits, with at
least one digit overall; the value is returned as a scaled natural
(value * 10 ^ fraction-length, fraction-length). -/
def parseMantissa (cs : List Char) : Option (Nat × Nat) :=
  match splitDot cs with
  | none => none
  | some (ip, fp) =>
    if ip.isEmpty && fp.isEmpty then none
    else
      let iv : Option Nat := if ip.isEmpty then some 0 else digitsToNat 10 ip
      let fv : Option Nat := if fp.isEmpty then some 0 else digitsToNat 10 fp
      match iv, fv with
      | some i, some f => some (i * 10 ^ fp.length + f, fp.length)
      | _, _ => none

/-- An optionally signed decimal exponent. -/
def parseSignedNat (cs : List Char) : Option Int :=
  match cs with
  | '+' :: r => (digitsToNat 10 r).map Int.ofNat
  | '-' :: r => (digitsToNat 10 r).map (fun n => -(n : Int))
  | r => (digitsToNat 10 r).map Int.ofNat

/-- Scale n / 10 ^ p by a signed power of ten. -/
def applyExp (n : Int) (p : Nat) (ex : Int) : Int × Nat :=
  if 0 ≤ ex then (n * (10 : Int) ^ ex.toNat, p) else (n, p + (-ex).toNat)

/-- An unsigned decimal literal with optional fraction and exponent, as a
scaled natural. -/
def parseDecS (cs : List Char) : Option (Nat × Nat) :=
  match splitExp cs with
  | (m, none) => parseMantissa m
  | (m, some ecs) =>
    match parseMantissa m, parseSignedNat ecs with
    | some mv, some ex =>
      let r := applyExp (mv.1 : Int) mv.2 ex
      some (r.1.toNat, r.2)
    | _, _ => none

/-- Whitespace characters stripped by the string-to-number conversion. -/
def isJsWs (c : Char) : Bool :=
  c = ' ' || c = '\t' || c = '\n' || c = '\r' || c = '\x0b' || c = '\x0c'

/-- Strip leading and trailing whitespace from a character list. -/
def trimChars (cs : List Char) : List Char :=
  (((cs.dropWhile isJsWs).reverse).dropWhile isJsWs).reverse

/-- The JavaScript string-to-number conversion, as applied by Number(val):
trims whitespace, maps the empty string to zero, reads hexadecimal, octal
and binary prefixed literals, signed Infinity, and signed decimal literals;
every other string is NaN (none). -/
def jsNumber (s : String) : Option JSNum :=
  let cs := trimChars s.toList
  match cs with
  | [] => some (.num 0 0)
  | '0' :: 'x' :: r => (digitsToNat 16 r).map (fun n => .num (n : Int) 0)
  | '0' :: 'X' :: r => (digitsToNat 16 r).map (fun n => .num (n : Int) 0)
  | '0' :: 'o' :: r => (digitsToNat 8 r).map (fun n => .num (n : Int) 0)
  | '0' :: 'O' :: r => (digitsToNat 8 r).map (fun n => .num (n : Int) 0)
  | '0' :: 'b' :: r => (digitsToNat 2 r).map (fun n => .num (n : Int) 0)
  | '0' :: 'B' :: r => (digitsToNat 2 r).map (fun n => .num (n : Int) 0)
  | _ =>
    let sr : Int × List Char :=
      match cs with
      | '+' :: r => (1, r)
      | '-' :: r => (-1, r)
      | r => (1, r)
    if sr.2 = "Infinity".toList then
      some (if sr.1 = 1 then .posInf else .negInf)
    else
      (parseDecS sr.2).map (fun mv => .num (sr.1 * (mv.1 : Int)) mv.2)

/-- The age rule of the sign-up schema: the string must convert to a number
(not NaN) that is at least 18. -/
def validateAge (val : String) : Bool :=
  match jsNumber val with
  | some n => n.geI 18
  | none => false

/-- The values of the login form. -/
structure LoginInput where
  email : String
  password : String
deriving DecidableEq

/-- loginSchema: email shape and a six-character password minimum; issues
are listed as (field, message) pairs. -/
def loginValidate (i : LoginInput) : List (String × String) :=
  (if emailShapeValid i.email then []
   else [("email", "Please enter a valid email address")]) ++
  (if i.password.length < 6 then [("password", "Password must be at least 6 characters")]
   else [])

/-- The values of the sign-up form. -/
structure SignUpInput where
  username : String
  email : String
  password : String
  confirmPassword : String
  age : String
deriving DecidableEq

/-- The per-field issues of signUpSchema: username minimum length, email
shape, password minimum length, age rule; the confirmation field has no
per-field rule. -/
def signUpFieldErrors (d : SignUpInput) : List (String × String) :=
  (if d.username.length < 3 then [("username", "Username must be at least 3 characters")]
   else []) ++
  (if emailShapeValid d.email then []
   else [("email", "Please enter a valid email address")]) ++
  (if d.password.length < 6 then [("password", "Password must be at least 6 characters")]
   else []) ++
  (if validateAge d.age then [] else [("age", "You must be at least 18 years old")])

/-- signUpSchema: the per-field rules, then the object-level refinement
comparing password and confirmation with its issue attached to the
confirmation field. As in the schema library, the refinement is skipped only
when the base object parse aborts on a type-level failure; form inputs are
always strings here, so a parse with failed field rules is merely dirty and
the refinement still runs, appending its issue after the field issues. -/
def signUpValidate (d : SignUpInput) : List (String × String) :=
  signUpFieldErrors d ++
    (if d.password = d.confirmPassword then []
     else [("confirmPassword", "Passwords don\x27t match")])

/-- forgotPasswordSchema: the email-shape rule only. -/
def forgotValidate (email : String) : List (String × String) :=
  if emailShapeValid email then []
  else [("email", "Please enter a valid email address")]

/-- The form submit pipeline of the Login screen: onSubmit (and with it the
sign-in call) runs only when validation produces no issue. The final
component records whether the backend sign-in call was issued. -/
def loginHandleSubmit (i : LoginInput) (r : SignInResult) (s : ScreenState) :
    ScreenState × Option String × Bool :=
  if loginValidate i = [] then
    let (s2, nav) := loginOnSubmit r s
    (s2, nav, true)
  else (s, none, false)

/-- The form submit pipeline of the SignUp screen: onSubmit (and with it the
account-creation call) runs only when validation produces no issue. -/
def signUpHandleSubmit (d : SignUpInput) (r1 : SignUpResult) (r2 : OpResult)
    (s : ScreenState) : ScreenState × Option String × Bool :=
  if signUpValidate d = [] then
    let (s2, nav) := signUpOnSubmit r1 r2 s
    (s2, nav, true)
  else (s, none, false)

/-- The form submit pipeline of the ForgotPassword screen: onSubmit (and
with it the reset dispatch) runs only when validation produces no issue. -/
def forgotHandleSubmit (email : String) (r : ResetOutcome) (s : ScreenState) :
    ScreenState × Bool :=
  if forgotValidate email = [] then (forgotOnSubmit r s, true)
  else (s, false)

/-- A list with no at-sign has no single-at-sign split. -/
theorem splitAtSign_eq_none_of_not_mem (cs : List Char) (h : '@' ∉ cs) :
    splitAtSign cs = none := by
  induction cs with
  | nil => rfl
  | cons c cs ih =>
    simp only [List.mem_cons, not_or] at h
    have hc : ¬(c = '@') := fun hce => h.1 hce.symm
    simp [splitAtSign, hc, ih h.2]

/-- A string with no at-sign fails the email-shape rule. -/
theorem emailShapeValid_eq_false_of_no_at (s : String) (h : '@' ∉ s.toList) :
    emailShapeValid s = false := by
  have h2 : splitAtSign s.data = none := splitAtSign_eq_none_of_not_mem s.toList h
  simp [emailShapeValid, h2]

/-- A key outside the written field names is not found in the profile save
field list. -/
theorem lookup_profileSaveFields_eq_none (data : ProfileFormData)
    (img em : Option String) (now : String) (k : String)
    (hk : k ∉ profileSavedKeys) :
    (profileSaveFields data img em now).lookup k = none := by
  simp only [profileSavedKeys, List.mem_cons, List.not_mem_nil, or_false, not_or] at hk
  obtain ⟨h1, h2, h3, h4, h5, h6, h7⟩ := hk
  have e1 : (k == "username") = false := beq_eq_false_iff_ne.mpr h1
  have e2 : (k == "dob") = false := beq_eq_false_iff_ne.mpr h2
  have e3 : (k == "mobileNumber") = false := beq_eq_false_iff_ne.mpr h3
  have e4 : (k == "address") = false := beq_eq_false_iff_ne.mpr h4
  have e5 : (k == "photoURL") = false := beq_eq_false_iff_ne.mpr h5
  have e6 : (k == "email") = false := beq_eq_false_iff_ne.mpr h6
  have e7 : (k == "updatedAt") = false := beq_eq_false_iff_ne.mpr h7
  simp [profileSaveFields, List.lookup, e1, e2, e3, e4, e5, e6, e7]

/-- Claim C1: a profile save merge-writes the submitted fields into the
stored record keyed by the identity id, denormalizes the authenticated user
email into the record, and stamps updatedAt with the current time; a field of
the stored record outside the written field names is preserved, and at the
merge-write layer a record holding username Y, merged with an update holding
address X, holds both afterwards. -/
theorem profile_save_merge_writes_denormalizes_and_stamps
    (store : FDoc) (data : ProfileFormData) (s : ProfileState)
    (u : FirebaseUser) (now : String) :
    (profileOnSubmit data .ok .ok (some u) now s store).2 "email" = some (FValue.ofOpt u.email) ∧
    (profileOnSubmit data .ok .ok (some u) now s store).2 "updatedAt" = some (.str now) ∧
    (profileOnSubmit data .ok .ok (some u) now s store).2 "username" = some (.str data.username) ∧
    (profileOnSubmit data .ok .ok (some u) now s store).2 "address" = some (.str data.address) ∧
    (∀ k, k ∉ profileSavedKeys → (profileOnSubmit data .ok .ok (some u) now s store).2 k = store k) ∧
    setDocMerge (setDocMerge emptyFDoc [("username", .str "Y")]) [("address", .str "X")]
      "username" = some (.str "Y") ∧
    setDocMerge (setDocMerge emptyFDoc [("username", .str "Y")]) [("address", .str "X")]
      "address" = some (.str "X") := by
  refine ⟨?_, ?_, ?_, ?_, ?_, ?_, ?_⟩
  · simp [profileOnSubmit, setDocMerge, profileSaveFields, List.lookup]
  · simp [profileOnSubmit, setDocMerge, profileSaveFields, List.lookup]
  · simp [profileOnSubmit, setDocMerge, profileSaveFields, List.lookup]
  · simp [profileOnSubmit, setDocMerge, profileSaveFields, List.lookup]
  · intro k hk
    simp [profileOnSubmit, setDocMerge,
      lookup_profileSaveFields_eq_none data s.profileImage u.email now k hk]
  · decide
  · decide

/-- Witness for claim C1 at concrete inputs: a field named favoriteColor,
absent from the written field names, is preserved by the save. -/
theorem profile_save_merge_preserves_witness :
    "favoriteColor" ∉ profileSavedKeys ∧
    (profileOnSubmit ⟨"bob", "2000-01-01", "1234567890", "12 Main Street"⟩ .ok .ok
        (some ⟨"uid1", some "bob@example.com", some "Bob", none⟩) "2025-01-01"
        (initialProfileState (some ⟨"uid1", some "bob@example.com", some "Bob", none⟩))
        (setDocMerge emptyFDoc [("favoriteColor", .str "green")])).2 "favoriteColor" =
      some (.str "green") := by
  refine ⟨by decide, ?_⟩
  have h := (profile_save_merge_writes_denormalizes_and_stamps
    (setDocMerge emptyFDoc [("favoriteColor", .str "green")])
    ⟨"bob", "2000-01-01", "1234567890", "12 Main Street"⟩
    (initialProfileState (some ⟨"uid1", some "bob@example.com", some "Bob", none⟩))
    ⟨"uid1", some "bob@example.com", some "Bob", none⟩
    "2025-01-01").2.2.2.2.1 "favoriteColor" (by decide)
  rw [h]
  decide

/-- Claim C2: a selected file whose content type is not an image type is
rejected with a local message and no upload call; a selected file larger
than 5 MiB is rejected with the size-limit message and no upload call; a
file passing both checks triggers the upload, and on success the returned
reference becomes the displayed preview. -/
theorem photo_upload_client_validation
    (f : JSFile) (u : UploadOutcome) (s : ProfileState) :
    (jsStartsWith f.type "image/" = false →
      handleImageChange (some f) u s =
        ({ s with error := "Please select an image file (PNG, JPG, etc.)" }, false)) ∧
    (jsStartsWith f.type "image/" = true → f.size > 5 * 1024 * 1024 →
      handleImageChange (some f) u s =
        ({ s with error := "Image size should be less than 5MB" }, false)) ∧
    (jsStartsWith f.type "image/" = true → f.size ≤ 5 * 1024 * 1024 →
      (handleImageChange (some f) u s).2 = true ∧
      ∀ url, u = .ok url → (handleImageChange (some f) u s).1.profileImage = some url) := by
  refine ⟨?_, ?_, ?_⟩
  · intro h
    simp [handleImageChange, h]
  · intro h1 h2
    simp [handleImageChange, h1, h2]
  · intro h1 h2
    constructor
    · cases u <;> simp [handleImageChange, h1, Nat.not_lt_of_le h2]
    · intro url hu
      subst hu
      simp [handleImageChange, h1, Nat.not_lt_of_le h2]

/-- Witness for claim C2 at concrete inputs: a 6 MB file is rejected with
the size-limit message and no upload call; a 2 MB PNG is uploaded and the
returned reference becomes the preview. -/
theorem photo_upload_client_validation_witness :
    handleImageChange (some ⟨"big.png", "image/png", 6000000⟩) (.ok "https://files/big")
        (initialProfileState none) =
      ({ initialProfileState none with error := "Image size should be less than 5MB" }, false) ∧
    (handleImageChange (some ⟨"pic.png", "image/png", 2000000⟩) (.ok "https://files/pic")
        (initialProfileState none)).1.profileImage = some "https://files/pic" := by
  constructor
  · exact (photo_upload_client_validation ⟨"big.png", "image/png", 6000000⟩
      (.ok "https://files/big") (initialProfileState none)).2.1 (by decide) (by decide)
  · exact ((photo_upload_client_validation ⟨"pic.png", "image/png", 2000000⟩
      (.ok "https://files/pic") (initialProfileState none)).2.2 (by decide) (by decide)).2
      "https://files/pic" rfl

/-- Claim C3: the sign-up age rule accepts a string exactly when it converts
to a number (not NaN) of value at least 18; conversion and comparison are
total, so non-numeric input yields a violation, never a crash; the inputs
17, abc and -5 are rejected and 18 and 99 are accepted, and a rejected age
contributes the age violation message to the field issues. -/
theorem sign_up_age_rule (s : String) (d : SignUpInput) :
    (validateAge s = true ↔ ∃ n : JSNum, jsNumber s = some n ∧ n.geI 18 = true) ∧
    (validateAge d.age = false →
      ("age", "You must be at least 18 years old") ∈ signUpFieldErrors d) ∧
    validateAge "17" = false ∧
    validateAge "abc" = false ∧
    validateAge "-5" = false ∧
    validateAge "18" = true ∧
    validateAge "99" = true := by
  refine ⟨?_, ?_, by decide, by decide, by decide, by decide, by decide⟩
  · cases h : jsNumber s with
    | none => simp [validateAge, h]
    | some n => simp [validateAge, h]
  · intro h
    simp [signUpFieldErrors, h]

/-- Witness for claim C3 at concrete inputs: abc is a rejected age, and the
rejection surfaces as the age violation message among the field issues. -/
theorem sign_up_age_rule_witness :
    validateAge "abc" = false ∧
    ("age", "You must be at least 18 years old") ∈
      signUpFieldErrors ⟨"carol", "c@d.org", "hunter22", "hunter22", "abc"⟩ := by
  refine ⟨by decide, ?_⟩
  exact (sign_up_age_rule "abc" ⟨"carol", "c@d.org", "hunter22", "hunter22", "abc"⟩).2.1
    (by decide)

/-- Every per-field issue of the sign-up schema is one of the four fixed
field/message pairs. -/
theorem mem_signUpFieldErrors (d : SignUpInput) (p : String × String)
    (hp : p ∈ signUpFieldErrors d) :
    p = ("username", "Username must be at least 3 characters") ∨
    p = ("email", "Please enter a valid email address") ∨
    p = ("password", "Password must be at least 6 characters") ∨
    p = ("age", "You must be at least 18 years old") := by
  unfold signUpFieldErrors at hp
  split at hp <;> split at hp <;> split at hp <;> split at hp <;> simp_all <;> tauto

/-- Claim C4: for every sign-up input whose password and confirmation
differ, validation rejects and the confirmation-mismatch violation is
attached to the confirmation field, never to the password field; when every
per-field rule also passes, the issue list is exactly that one violation. -/
theorem password_mismatch_flagged_on_confirm (d : SignUpInput)
    (hne : d.password ≠ d.confirmPassword) :
    signUpValidate d ≠ [] ∧
    ("confirmPassword", "Passwords don\x27t match") ∈ signUpValidate d ∧
    ("password", "Passwords don\x27t match") ∉ signUpValidate d ∧
    (signUpFieldErrors d = [] →
      signUpValidate d = [("confirmPassword", "Passwords don\x27t match")]) := by
  have hm : ("confirmPassword", "Passwords don\x27t match") ∈ signUpValidate d := by
    unfold signUpValidate
    refine List.mem_append_right _ ?_
    simp [hne]
  refine ⟨List.ne_nil_of_mem hm, hm, ?_, ?_⟩
  · intro hp
    unfold signUpValidate at hp
    rcases List.mem_append.mp hp with hbase | href
    · rcases mem_signUpFieldErrors d _ hbase with h | h | h | h <;> simp at h
    · rw [if_neg hne] at href
      simp at href
  · intro hbase
    unfold signUpValidate
    rw [hbase, if_neg hne]
    rfl

/-- Witness for claim C4 at concrete inputs: with differing passwords the
mismatch violation sits on the confirmation field both when all per-field
rules pass (where it is the only issue) and when the password also fails its
minimum-length rule (where the dirty parse still runs the refinement). -/
theorem password_mismatch_flagged_on_confirm_witness :
    signUpValidate ⟨"alice", "a@b.co", "secret1", "secret2", "21"⟩ =
      [("confirmPassword", "Passwords don\x27t match")] ∧
    ("confirmPassword", "Passwords don\x27t match") ∈
      signUpValidate ⟨"alice", "a@b.co", "abc", "abcdef", "21"⟩ ∧
    ("password", "Passwords don\x27t match") ∉
      signUpValidate ⟨"alice", "a@b.co", "abc", "abcdef", "21"⟩ :=
  ⟨(password_mismatch_flagged_on_confirm
      ⟨"alice", "a@b.co", "secret1", "secret2", "21"⟩ (by decide)).2.2.2 (by decide),
   (password_mismatch_flagged_on_confirm
      ⟨"alice", "a@b.co", "abc", "abcdef", "21"⟩ (by decide)).2.1,
   (password_mismatch_flagged_on_confirm
      ⟨"alice", "a@b.co", "abc", "abcdef", "21"⟩ (by decide)).2.2.1⟩

/-- Claim C5: an email input with no at-sign is rejected by the Login,
SignUp and ForgotPassword validators with the email-shape violation, and the
corresponding backend operation is never invoked for that submission. -/
theorem no_at_email_rejected_without_backend_call
    (i : LoginInput) (d : SignUpInput) (fe : String)
    (rl : SignInResult) (r1 : SignUpResult) (r2 : OpResult) (rr : ResetOutcome)
    (s : ScreenState)
    (hi : '@' ∉ i.email.toList) (hd : '@' ∉ d.email.toList) (hf : '@' ∉ fe.toList) :
    (("email", "Please enter a valid email address") ∈ loginValidate i ∧
      (loginHandleSubmit i rl s).2.2 = false) ∧
    (("email", "Please enter a valid email address") ∈ signUpValidate d ∧
      (signUpHandleSubmit d r1 r2 s).2.2 = false) ∧
    (("email", "Please enter a valid email address") ∈ forgotValidate fe ∧
      (forgotHandleSubmit fe rr s).2 = false) := by
  have hlv : emailShapeValid i.email = false := emailShapeValid_eq_false_of_no_at _ hi
  have hdv : emailShapeValid d.email = false := emailShapeValid_eq_false_of_no_at _ hd
  have hfv : emailShapeValid fe = false := emailShapeValid_eq_false_of_no_at _ hf
  have hmL : ("email", "Please enter a valid email address") ∈ loginValidate i := by
    simp [loginValidate, hlv]
  have hmS : ("email", "Please enter a valid email address") ∈ signUpFieldErrors d := by
    simp [signUpFieldErrors, hdv]
  have hmS2 : ("email", "Please enter a valid email address") ∈ signUpValidate d := by
    unfold signUpValidate
    exact List.mem_append_left _ hmS
  have hmF : ("email", "Please enter a valid email address") ∈ forgotValidate fe := by
    simp [forgotValidate, hfv]
  refine ⟨⟨hmL, ?_⟩, ⟨hmS2, ?_⟩, ⟨hmF, ?_⟩⟩
  · simp [loginHandleSubmit, List.ne_nil_of_mem hmL]
  · simp [signUpHandleSubmit, List.ne_nil_of_mem hmS2]
  · simp [forgotHandleSubmit, List.ne_nil_of_mem hmF]

/-- Witness for claim C5 at a concrete input: the address nodomain.com has
no at-sign, the login validator reports the email-shape violation, and the
sign-in call is not issued. -/
theorem no_at_email_rejected_witness :
    ("email", "Please enter a valid email address") ∈
      loginValidate ⟨"nodomain.com", "secret1"⟩ ∧
    (loginHandleSubmit ⟨"nodomain.com", "secret1"⟩ .invalidCredentials
      ⟨"", "", false⟩).2.2 = false :=
  (no_at_email_rejected_without_backend_call ⟨"nodomain.com", "secret1"⟩
    ⟨"bob", "nodomain.com", "secret1", "secret1", "30"⟩ "nodomain.com"
    .invalidCredentials .accountCreationFailed .ok .dispatched ⟨"", "", false⟩
    (by decide) (by decide) (by decide)).1

/-- Claim C6: the outcome of reset-password is independent of whether the
email has an account (the provider does not disclose existence); a
dispatched result can occur for a nonexistent account, so success means
only that a reset message was dispatched, and the ForgotPassword screen then
shows the inbox message. -/
theorem reset_password_does_not_disclose_existence (s : ScreenState) :
    (∀ e1 e2 p : Bool, resetPasswordOutcome e1 p = resetPasswordOutcome e2 p) ∧
    resetPasswordOutcome false true = .dispatched ∧
    forgotOnSubmit (resetPasswordOutcome false true) s =
      { s with message := "Check your inbox for password reset instructions.",
               error := "", isLoading := false } :=
  ⟨fun _ _ _ => rfl, rfl, rfl⟩

/-- Claim C7: every failure of a screen operation (sign-in, Google sign-in,
sign-up, the display-name update after sign-up, reset-password, profile
save on either of its two calls, photo upload) leaves the screen idle: the
loading flag is cleared and the failure is shown as a nonempty message. -/
theorem every_failure_returns_screen_to_idle
    (s : ScreenState) (ps : ProfileState) (data : ProfileFormData)
    (cu : Option FirebaseUser) (u : FirebaseUser) (store : FDoc) (now : String)
    (f : JSFile) (r2 : OpResult)
    (hft : jsStartsWith f.type "image/" = true) (hfs : f.size ≤ 5 * 1024 * 1024) :
    ((loginOnSubmit .invalidCredentials s).1.isLoading = false ∧
      (loginOnSubmit .invalidCredentials s).1.error ≠ "") ∧
    ((handleGoogleSignIn .invalidCredentials s).1.isLoading = false ∧
      (handleGoogleSignIn .invalidCredentials s).1.error ≠ "") ∧
    ((signUpOnSubmit .accountCreationFailed r2 s).1.isLoading = false ∧
      (signUpOnSubmit .accountCreationFailed r2 s).1.error ≠ "") ∧
    ((signUpOnSubmit (.created u) .failed s).1.isLoading = false ∧
      (signUpOnSubmit (.created u) .failed s).1.error ≠ "") ∧
    ((forgotOnSubmit .providerError s).isLoading = false ∧
      (forgotOnSubmit .providerError s).error ≠ "") ∧
    ((profileOnSubmit data .failed r2 cu now ps store).1.isLoading = false ∧
      (profileOnSubmit data .failed r2 cu now ps store).1.error ≠ "") ∧
    ((profileOnSubmit data .ok .failed (some u) now ps store).1.isLoading = false ∧
      (profileOnSubmit data .ok .failed (some u) now ps store).1.error ≠ "") ∧
    ((handleImageChange (some f) .failed ps).1.isLoading = false ∧
      (handleImageChange (some f) .failed ps).1.error ≠ "") := by
  have hgt : ¬(f.size > 5 * 1024 * 1024) := by omega
  refine ⟨⟨rfl, ?_⟩, ⟨rfl, ?_⟩, ⟨?_, ?_⟩, ⟨rfl, ?_⟩, ⟨rfl, ?_⟩, ⟨?_, ?_⟩, ⟨rfl, ?_⟩,
    ⟨?_, ?_⟩⟩
  · simp [loginOnSubmit]
  · simp [handleGoogleSignIn]
  · cases r2 <;> rfl
  · cases r2 <;> simp [signUpOnSubmit]
  · simp [signUpOnSubmit]
  · simp [forgotOnSubmit]
  · cases cu <;> cases r2 <;> rfl
  · cases cu <;> cases r2 <;> simp [profileOnSubmit]
  · simp [profileOnSubmit]
  · simp [handleImageChange, hft, hgt]
  · simp [handleImageChange, hft, hgt]

/-- Witness for claim C7 at concrete inputs: the upload failure for a small
PNG clears the loading flag and shows a message. -/
theorem every_failure_returns_screen_to_idle_witness :
    (handleImageChange (some ⟨"pic.png", "image/png", 1024⟩) .failed
      (initialProfileState none)).1.isLoading = false ∧
    (handleImageChange (some ⟨"pic.png", "image/png", 1024⟩) .failed
      (initialProfileState none)).1.error ≠ "" :=
  (every_failure_returns_screen_to_idle ⟨"", "", false⟩ (initialProfileState none)
    ⟨"", "", "", ""⟩ none ⟨"u", none, none, none⟩ emptyFDoc "t"
    ⟨"pic.png", "image/png", 1024⟩ .ok (by decide) (by decide)).2.2.2.2.2.2.2

/-- Claim C8: a successful sign-in clears the error, ends loading, makes the
session authenticated and navigates to /profile; a failed sign-in leaves the
session anonymous, performs no navigation, and shows exactly one error
banner. -/
theorem sign_in_navigation_and_banner (s : ScreenState) (u : FirebaseUser)
    (st : SessionState) :
    (loginOnSubmit (.success u) s =
        ({ s with error := "", isLoading := false }, some "/profile") ∧
      sessionAfterSignIn st (.success u) = .authenticated u) ∧
    (loginOnSubmit .invalidCredentials s =
        ({ s with error := "Failed to sign in. Please check your credentials.",
                  isLoading := false }, none) ∧
      sessionAfterSignIn .anonymous .invalidCredentials = .anonymous ∧
      bannerCount (loginOnSubmit .invalidCredentials s).1 = 1) := by
  refine ⟨⟨rfl, rfl⟩, rfl, rfl, ?_⟩
  rfl

/-- Claim C9: when account creation succeeds and the subsequent display-name
update fails, the session is nevertheless authenticated (the account
exists), while the screen shows the generic account-creation failure banner
and does not navigate to /profile. -/
theorem sign_up_partial_failure_no_compensation (s : ScreenState) (u : FirebaseUser) :
    signUpOnSubmit (.created u) .failed s =
      ({ s with error := "Failed to create an account.", isLoading := false }, none) ∧
    sessionAfterSignUp .anonymous (.created u) = .authenticated u ∧
    bannerCount (signUpOnSubmit (.created u) .failed s).1 = 1 := by
  refine ⟨rfl, rfl, ?_⟩
  rfl

/-- Claim C10: a failure of the profile-record fetch on mount is silently
swallowed: starting from the mount state, only the fetching flag changes, no
error message is set, and the form keeps its defaults (the identity display
name as username, other fields empty); moreover no fetch outcome ever
changes the error message, and every completed fetch clears the fetching
flag. -/
theorem profile_fetch_failure_swallowed (u : FirebaseUser) :
    fetchUserData .failed (some u) (initialProfileState (some u)) =
      { initialProfileState (some u) with fetchingUserData := false } ∧
    (fetchUserData .failed (some u) (initialProfileState (some u))).error = "" ∧
    (fetchUserData .failed (some u) (initialProfileState (some u))).form.username =
      jsStr u.displayName "" ∧
    (fetchUserData .failed (some u) (initialProfileState (some u))).form.dob = "" ∧
    (fetchUserData .failed (some u) (initialProfileState (some u))).form.mobileNumber = "" ∧
    (fetchUserData .failed (some u) (initialProfileState (some u))).form.address = "" ∧
    (∀ r cu s0, (fetchUserData r cu s0).error = s0.error) ∧
    (∀ r s0, (fetchUserData r (some u) s0).fetchingUserData = false) := by
  refine ⟨rfl, rfl, rfl, rfl, rfl, rfl, ?_, ?_⟩
  · intro r cu s0
    cases cu with
    | none => rfl
    | some v => cases r <;> rfl
  · intro r s0
    cases r <;> rfl
